import Mathlib

/-!
# Guardrails moderation engine — shallow embedding

This file embeds the `Guardrails` class of the repository (content
moderation and policy enforcement: `validateInput`, `checkBlockedPatterns`,
`checkProfanity`, `checkHarmfulContent`, `applyPolicies`, `moderateInput`,
`moderateOutput`, `configure`) in Lean and proves the specification claims
about it.

Modelling conventions:
* JS strings are `List Char` (`JSString`); `length` is list length,
  matching JS `.length` for the inputs considered.
* A JS `RegExp` object is a `JSRegex`: a matcher function (earliest match
  at or after a start index), its `global` flag, and its mutable
  `lastIndex`.  `RegExp.prototype.test` on a global regex starts the
  search at `lastIndex`, sets `lastIndex` to the match end on success and
  resets it to `0` on failure — this statefulness is part of the model
  because the source stores global regexes and re-uses them across calls.
  `String.prototype.match` with a global regex collects all matches and
  leaves `lastIndex` at `0`; capture groups are not modelled (the source
  only reads whole-match substrings from patterns whose group equals the
  whole match).
* A configured blocked/allowed pattern is either a regex object or a raw
  string; the source compiles a string entry with `new RegExp(src, 'gi')`
  freshly at each use, which throws a `SyntaxError` for malformed pattern
  syntax.  Since we do not embed a regex compiler, a string entry carries
  its compilation outcome: `some matcher` for well-formed syntax, `none`
  for a string `new RegExp` would reject.
* Exceptions are `Except JSError`; `console.warn` logging is modelled by
  returning the list of emitted log records (the `timestamp` field is
  wall-clock time and is not modelled beyond its presence in the record).
* JS objects with optional fields become structures with `Option` fields;
  the falsy-string defaulting idiom `x || d` becomes `jsOrStr`.
-/

/-- JS strings, as lists of characters. -/
abbrev JSString := List Char

/-- A regex matcher: given the subject and a start index, the leftmost
match at or after that index, as `(matchStart, matchEnd)`. -/
abbrev Matcher := JSString → Nat → Option (Nat × Nat)

/-- A JS `RegExp` object: matcher, `global` flag, mutable `lastIndex`,
and its `toString()` representation. -/
structure JSRegex where
  matcher : Matcher
  global : Bool
  lastIndex : Nat
  srcRepr : String

/-- `RegExp.prototype.test`: a global regex searches from `lastIndex`,
advancing it to the match end on success and resetting it to `0` on
failure; a non-global regex always searches from `0` and leaves
`lastIndex` untouched.  Returns the verdict and the updated regex. -/
def jsTest (r : JSRegex) (s : JSString) : Bool × JSRegex :=
  let start := if r.global then r.lastIndex else 0
  match r.matcher s start with
  | some (_, e) => (true, if r.global then { r with lastIndex := e } else r)
  | none => (false, if r.global then { r with lastIndex := 0 } else r)

/-- All matched substrings of a global regex, scanning left to right and
advancing past empty matches, with fuel `s.length + 1` (enough for any
matcher that only matches inside the subject). -/
def matchAllAux (m : Matcher) (s : JSString) : Nat → Nat → List JSString
  | 0, _ => []
  | fuel + 1, start =>
    match m s start with
    | none => []
    | some (a, b) =>
      ((s.drop a).take (b - a)) :: matchAllAux m s fuel (if b ≤ a then a + 1 else b)

/-- `String.prototype.match` for a global regex: the list of all matched
substrings (`[]` standing for JS `null` when there is no match). -/
def jsMatchAll (r : JSRegex) (s : JSString) : List JSString :=
  matchAllAux r.matcher s (s.length + 1) 0

/-- `String.prototype.match` for any regex: all matches when global, the
first whole match when not (capture groups not modelled).  Also returns
the regex as left by `match`: a global regex ends with `lastIndex = 0`,
a non-global one is untouched. -/
def jsStringMatch (r : JSRegex) (s : JSString) : List JSString × JSRegex :=
  if r.global then (jsMatchAll r s, { r with lastIndex := 0 })
  else
    match r.matcher s 0 with
    | some (a, b) => ([(s.drop a).take (b - a)], r)
    | none => ([], r)

/-- JS errors thrown by the embedded code: the `SyntaxError` from
`new RegExp` on a malformed pattern string, and the `TypeError` from
reading a property of `null`/`undefined` (a nullish policy entry's
`policy.check` access). -/
inductive JSError where
  | syntaxError (src : String)
  | typeError (msg : String)
deriving DecidableEq

/-- One configured blocked/allowed pattern: a raw string (compiled with
`new RegExp(src, 'gi')` freshly at each use; `compiled = none` when that
compilation throws a `SyntaxError`) or a regex object. -/
inductive BlockedPattern where
  | str (src : String) (compiled : Option Matcher)
  | re (r : JSRegex)

/-- `pattern.toString()` as used for diagnostics: a string pattern
stringifies to itself, a regex to its source representation. -/
def patToString : BlockedPattern → String
  | .str src _ => src
  | .re r => r.srcRepr

/-- The JS falsy-string default idiom `x || d` for an optional string. -/
def jsOrStr (o : Option String) (d : String) : String :=
  match o with
  | some s => if s = "" then d else s
  | none => d

/-- ASCII word character, as in the regex class `\w`. -/
def isWordChar (c : Char) : Bool := c.isAlpha || c.isDigit || c = '_'

/-- Is the character at index `i` of `t` a word character (`false` past
the end)? -/
def wordCharAtIdx (t : JSString) (i : Nat) : Bool :=
  match t.drop i with
  | [] => false
  | c :: _ => isWordChar c

/-- Case-insensitive (ASCII) prefix test: `w` matches the start of `t`. -/
def matchesAtCI : List Char → List Char → Bool
  | [], _ => true
  | _ :: _, [] => false
  | a :: as, b :: bs => (a.toLower == b.toLower) && matchesAtCI as bs

/-- Does the word `w` match `t` at index `i` with `\b` boundaries on both
sides, case-insensitively? -/
def wordMatchesAt (w : List Char) (t : JSString) (i : Nat) : Bool :=
  matchesAtCI w (t.drop i) &&
    (i == 0 || !wordCharAtIdx t (i - 1)) &&
    !wordCharAtIdx t (i + w.length)

/-- First alternative of `ws` matching at index `i`, returning the match
end (regex alternation tries alternatives left to right). -/
def altMatchAt (ws : List (List Char)) (t : JSString) (i : Nat) : Option Nat :=
  match ws with
  | [] => none
  | w :: rest => if wordMatchesAt w t i then some (i + w.length) else altMatchAt rest t i

/-- Scan `t` left to right from index `i` for the first position where
some alternative matches, with explicit fuel (structural recursion so
that concrete runs compute definitionally). -/
def altScanAux (ws : List (List Char)) (t : JSString) : Nat → Nat → Option (Nat × Nat)
  | 0, _ => none
  | fuel + 1, i =>
    if i ≤ t.length then
      match altMatchAt ws t i with
      | some e => some (i, e)
      | none => if i = t.length then none else altScanAux ws t fuel (i + 1)
    else none

/-- Scan `t` left to right from index `i` for the first position where
some alternative matches: the matcher of `/\b(w1|w2|...)\b/gi`.  Fuel
`t.length + 1` covers every start index up to `t.length`. -/
def altScan (ws : List (List Char)) (t : JSString) (i : Nat) : Option (Nat × Nat) :=
  altScanAux ws t (t.length + 1) i

/-- The matcher of a word-alternation regex `/\b(...)\b/gi`. -/
def wordAltMatcher (ws : List String) : Matcher :=
  fun t i => altScan (ws.map String.toList) t i

/-- The default profanity pattern
`/\b(fuck|shit|damn|hell|bitch|asshole)\b/gi`. -/
def defaultProfanityRegex : JSRegex :=
  { matcher := wordAltMatcher ["fuck", "shit", "damn", "hell", "bitch", "asshole"]
    global := true
    lastIndex := 0
    srcRepr := "/\\b(fuck|shit|damn|hell|bitch|asshole)\\b/gi" }

/-- The default harmful-content pattern
`/\b(kill|murder|suicide|bomb|terrorist|violence)\b/gi`. -/
def defaultHarmfulRegex : JSRegex :=
  { matcher := wordAltMatcher ["kill", "murder", "suicide", "bomb", "terrorist", "violence"]
    global := true
    lastIndex := 0
    srcRepr := "/\\b(kill|murder|suicide|bomb|terrorist|violence)\\b/gi" }

/-! ## Check results, policies, configuration -/

/-- Result of `validateInput`. -/
structure ValidationResult where
  valid : Bool
  reason : Option String
  code : Option String
deriving DecidableEq

/-- Result of `checkBlockedPatterns`. -/
structure BPResult where
  blocked : Bool
  pattern : Option String
  reason : Option String
  code : Option String
deriving DecidableEq

/-- Result of `checkProfanity`. -/
structure ProfanityResult where
  hasProfanity : Bool
  «matches» : Option (List JSString)
  reason : Option String
  code : Option String
deriving DecidableEq

/-- Result of `checkHarmfulContent`. -/
structure HarmfulResult where
  isHarmful : Bool
  reason : Option String
  code : Option String
deriving DecidableEq

/-- What a policy predicate returns when it does not throw: a bare
boolean or a structured `{passed, reason, code}` object. -/
inductive PolicyReturn where
  | bool (b : Bool)
  | obj (passed : Bool) (reason : Option String) (code : Option String)
deriving DecidableEq

/-- One invocation of a policy predicate: a normal return or a thrown
error carrying its message. -/
inductive PolicyCall where
  | ret (r : PolicyReturn)
  | throw (msg : String)
deriving DecidableEq

/-- A configured policy: a function (with its JS `name`), an object with
a `check` function (and optional `name`/`reason` fields), any other
non-nullish value (not a function and without a callable `check`, e.g. a
number, a string, or an object whose `check` is not a function — property
access on it succeeds and yields nothing callable), or a nullish entry
(`null` or `undefined`; `tag` records which) on which any property
access throws a `TypeError`. -/
inductive Policy where
  | fn (name : Option String) (run : JSString → String → PolicyCall)
  | withCheck (name : Option String) (reason : Option String)
      (run : JSString → String → PolicyCall)
  | invalid (name : Option String)
  | nullish (tag : String)

/-- The JS `policy.name` read by `applyPolicies` (before the
`|| 'unnamed'` default); never reached for a nullish entry, whose
evaluation throws first. -/
def Policy.nameOf : Policy → Option String
  | .fn n _ => n
  | .withCheck n _ _ => n
  | .invalid n => n
  | .nullish _ => none

/-- Result of `_evaluatePolicy`. -/
structure PolicyEval where
  passed : Bool
  reason : Option String
  code : Option String
deriving DecidableEq

/-- One entry of the `violations` array built by `applyPolicies`. -/
structure Violation where
  policy : String
  reason : Option String
  code : String
deriving DecidableEq

/-- Result of `applyPolicies`. -/
structure PolicyCheckResult where
  passed : Bool
  violations : Option (List Violation)
  reason : Option String
  code : Option String
deriving DecidableEq

/-- The engine configuration (`this.config`). -/
structure Config where
  maxMessageLength : Nat
  minMessageLength : Nat
  enableContentFilter : Bool
  blockedPatterns : List BlockedPattern
  allowedPatterns : Option (List BlockedPattern)
  enableProfanityFilter : Bool
  enableOutputModeration : Bool
  maxResponseLength : Nat
  policies : List Policy
  logViolations : Bool
  violationAction : String

/-- The constructor / `configure` options object: each field is present
or absent.  (A key present with value `undefined` is not modelled; the
source's trailing `...options` spread makes a present key's raw value win
over the `||` / `!== false` defaulting, which is what `Option.getD`
captures.) -/
structure Options where
  maxMessageLength : Option Nat
  minMessageLength : Option Nat
  enableContentFilter : Option Bool
  blockedPatterns : Option (List BlockedPattern)
  allowedPatterns : Option (Option (List BlockedPattern))
  enableProfanityFilter : Option Bool
  enableOutputModeration : Option Bool
  maxResponseLength : Option Nat
  policies : Option (List Policy)
  logViolations : Option Bool
  violationAction : Option String
  profanityPatterns : Option (List JSRegex)
  harmfulPatterns : Option (List JSRegex)

/-- An options object with every field absent. -/
def emptyOptions : Options :=
  { maxMessageLength := none, minMessageLength := none
    enableContentFilter := none, blockedPatterns := none
    allowedPatterns := none, enableProfanityFilter := none
    enableOutputModeration := none, maxResponseLength := none
    policies := none, logViolations := none, violationAction := none
    profanityPatterns := none, harmfulPatterns := none }

/-- The engine instance: its configuration plus the two pattern arrays
stored as own fields (`this.profanityPatterns`, `this.harmfulPatterns`).
Regex objects inside carry their mutable `lastIndex`. -/
structure GuardrailsState where
  config : Config
  profanityPatterns : List JSRegex
  harmfulPatterns : List JSRegex

/-- The `Guardrails` constructor: each config field takes the provided
option (present keys win via the trailing `...options` spread) or its
default; the profanity/harmful pattern arrays default to the built-in
single-pattern lists. -/
def mkGuardrails (o : Options) : GuardrailsState :=
  { config :=
      { maxMessageLength := o.maxMessageLength.getD 10000
        minMessageLength := o.minMessageLength.getD 1
        enableContentFilter := o.enableContentFilter.getD true
        blockedPatterns := o.blockedPatterns.getD []
        allowedPatterns := o.allowedPatterns.getD none
        enableProfanityFilter := o.enableProfanityFilter.getD true
        enableOutputModeration := o.enableOutputModeration.getD true
        maxResponseLength := o.maxResponseLength.getD 50000
        policies := o.policies.getD []
        logViolations := o.logViolations.getD true
        violationAction := o.violationAction.getD "reject" }
    profanityPatterns := o.profanityPatterns.getD [defaultProfanityRegex]
    harmfulPatterns := o.harmfulPatterns.getD [defaultHarmfulRegex] }

/-- `configure(options)`: shallow merge of the provided fields into the
live configuration (`this.config = \x7b...this.config, ...options\x7d`), and
full replacement of `this.profanityPatterns` / `this.harmfulPatterns`
when those keys are provided. -/
def configure (st : GuardrailsState) (o : Options) : GuardrailsState :=
  { config :=
      { maxMessageLength := o.maxMessageLength.getD st.config.maxMessageLength
        minMessageLength := o.minMessageLength.getD st.config.minMessageLength
        enableContentFilter := o.enableContentFilter.getD st.config.enableContentFilter
        blockedPatterns := o.blockedPatterns.getD st.config.blockedPatterns
        allowedPatterns := o.allowedPatterns.getD st.config.allowedPatterns
        enableProfanityFilter := o.enableProfanityFilter.getD st.config.enableProfanityFilter
        enableOutputModeration := o.enableOutputModeration.getD st.config.enableOutputModeration
        maxResponseLength := o.maxResponseLength.getD st.config.maxResponseLength
        policies := o.policies.getD st.config.policies
        logViolations := o.logViolations.getD st.config.logViolations
        violationAction := o.violationAction.getD st.config.violationAction }
    profanityPatterns := o.profanityPatterns.getD st.profanityPatterns
    harmfulPatterns := o.harmfulPatterns.getD st.harmfulPatterns }

/-! ## Input validation -/

/-- A value handed to `moderateInput`: a string or anything else (only
its `typeof` tag matters to the code). -/
inductive JSVal where
  | str (s : JSString)
  | nonString (tag : String)

/-- The underlying string of a `JSVal` (`[]` for non-strings, which never
reach the string-consuming checks). -/
def jsValStr : JSVal → JSString
  | .str s => s
  | .nonString _ => []

/-- JS whitespace as far as `String.prototype.trim` is concerned, for the
characters we model. -/
def isJSSpace (c : Char) : Bool :=
  c == ' ' || c == '\t' || c == '\n' || c == '\r' || c == '\x0b' || c == '\x0c'

/-- `String.prototype.trim`: strip leading and trailing whitespace. -/
def jsTrim (s : JSString) : JSString :=
  ((s.dropWhile isJSSpace).reverse.dropWhile isJSSpace).reverse

/-- `validateInput(message)`: type check, then minimum length, then
maximum length, then emptiness after trimming; the first failure returns
immediately. -/
def validateInput (minLen maxLen : Nat) (message : JSVal) : ValidationResult :=
  match message with
  | .nonString _ => ⟨false, some "Message must be a string", some "INVALID_TYPE"⟩
  | .str s =>
    if s.length < minLen then
      ⟨false, some ("Message too short. Minimum length: " ++ toString minLen),
        some "MESSAGE_TOO_SHORT"⟩
    else if s.length > maxLen then
      ⟨false, some ("Message too long. Maximum length: " ++ toString maxLen),
        some "MESSAGE_TOO_LONG"⟩
    else if (jsTrim s).isEmpty then
      ⟨false, some "Message cannot be empty", some "EMPTY_MESSAGE"⟩
    else ⟨true, none, none⟩

/-! ## Pattern filter -/

/-- One match test of a blocked/allowed pattern entry: a string entry is
compiled freshly with `new RegExp(src, 'gi')` (throwing a `SyntaxError`
when malformed, testing from index 0 when well-formed, the fresh object
then discarded); a regex entry is tested statefully in place. -/
def testBlockedPattern (p : BlockedPattern) (content : JSString) :
    Except JSError (Bool × BlockedPattern) :=
  match p with
  | .str src none => .error (.syntaxError src)
  | .str src (some m) => .ok ((m content 0).isSome, .str src (some m))
  | .re r => .ok ((jsTest r content).1, .re (jsTest r content).2)

/-- The `for (const pattern of blockedPatterns)` loop: the stringified
first matching pattern (if any) and the updated pattern list (patterns
after the first hit are untouched). -/
def runBlockedLoop (content : JSString) :
    List BlockedPattern → Except JSError (Option String × List BlockedPattern)
  | [] => .ok (none, [])
  | p :: rest =>
    match testBlockedPattern p content with
    | .error e => .error e
    | .ok t =>
      if t.1 then .ok (some (patToString p), t.2 :: rest)
      else
        match runBlockedLoop content rest with
        | .error e => .error e
        | .ok r => .ok (r.1, t.2 :: r.2)

/-- The `allowedPatterns.some(...)` loop: whether any pattern matches,
with the updated pattern list (short-circuits after the first hit). -/
def runAllowedLoop (content : JSString) :
    List BlockedPattern → Except JSError (Bool × List BlockedPattern)
  | [] => .ok (false, [])
  | p :: rest =>
    match testBlockedPattern p content with
    | .error e => .error e
    | .ok t =>
      if t.1 then .ok (true, t.2 :: rest)
      else
        match runAllowedLoop content rest with
        | .error e => .error e
        | .ok r => .ok (r.1, t.2 :: r.2)

/-- `checkBlockedPatterns(content)`: no-op when the content filter is
off; otherwise the first matching blocked pattern blocks with
`BLOCKED_PATTERN`; otherwise, when `allowedPatterns` is non-null and
non-empty, the content must match at least one allowed pattern or the
result is blocked with `NOT_ALLOWED_PATTERN`.  Returns the result plus
both pattern lists with their updated regex states. -/
def checkBlockedPatterns (enable : Bool) (bps : List BlockedPattern)
    (aps : Option (List BlockedPattern)) (content : JSString) :
    Except JSError (BPResult × List BlockedPattern × Option (List BlockedPattern)) :=
  if !enable then .ok (⟨false, none, none, none⟩, bps, aps)
  else
    match runBlockedLoop content bps with
    | .error e => .error e
    | .ok br =>
      match br.1 with
      | some pstr =>
        .ok (⟨true, some pstr, some "Content matches blocked pattern",
          some "BLOCKED_PATTERN"⟩, br.2, aps)
      | none =>
        match aps with
        | some l =>
          if l.isEmpty then .ok (⟨false, none, none, none⟩, br.2, some l)
          else
            match runAllowedLoop content l with
            | .error e => .error e
            | .ok ar =>
              if ar.1 then .ok (⟨false, none, none, none⟩, br.2, some ar.2)
              else
                .ok (⟨true, none, some "Content does not match any allowed pattern",
                  some "NOT_ALLOWED_PATTERN"⟩, br.2, some ar.2)
        | none => .ok (⟨false, none, none, none⟩, br.2, none)

/-! ## Profanity and harmful-content filters -/

/-- De-duplication worker with explicit fuel (structural recursion so
that concrete runs compute definitionally). -/
def jsSetDedupAux : Nat → List JSString → List JSString
  | 0, _ => []
  | _, [] => []
  | fuel + 1, a :: rest => a :: jsSetDedupAux fuel (rest.filter (fun b => b ≠ a))

/-- JS `[...new Set(xs)]`: de-duplicate keeping the first occurrence of
each element, preserving first-seen order.  Fuel `l.length` suffices
since each step strictly shrinks the list. -/
def jsSetDedup (l : List JSString) : List JSString := jsSetDedupAux l.length l

/-- The profanity `for` loop: all matched substrings of all patterns, in
pattern order, plus the pattern list as left by `String.prototype.match`. -/
def profanityLoop (content : JSString) : List JSRegex → List JSString × List JSRegex
  | [] => ([], [])
  | r :: rest =>
    ((jsStringMatch r content).1 ++ (profanityLoop content rest).1,
      (jsStringMatch r content).2 :: (profanityLoop content rest).2)

/-- `checkProfanity(content)`: no-op when the profanity filter is off;
otherwise collect every match of every profanity pattern and, when any
matched, report `PROFANITY_DETECTED` with the de-duplicated matches. -/
def checkProfanity (enable : Bool) (pats : List JSRegex) (content : JSString) :
    ProfanityResult × List JSRegex :=
  if !enable then (⟨false, none, none, none⟩, pats)
  else if (profanityLoop content pats).1.isEmpty then
    (⟨false, none, none, none⟩, (profanityLoop content pats).2)
  else
    (⟨true, some (jsSetDedup (profanityLoop content pats).1),
      some "Content contains profanity", some "PROFANITY_DETECTED"⟩,
      (profanityLoop content pats).2)

/-- The harmful-content `for` loop: stateful `test` of each pattern in
order, stopping at the first hit (patterns after it keep their state). -/
def harmfulLoop (content : JSString) : List JSRegex → Bool × List JSRegex
  | [] => (false, [])
  | r :: rest =>
    if (jsTest r content).1 then (true, (jsTest r content).2 :: rest)
    else
      ((harmfulLoop content rest).1, (jsTest r content).2 :: (harmfulLoop content rest).2)

/-- `checkHarmfulContent(content)`: no-op when the content filter is off;
otherwise the first harmful pattern whose stateful `test` succeeds yields
`HARMFUL_CONTENT`. -/
def checkHarmfulContent (enable : Bool) (pats : List JSRegex) (content : JSString) :
    HarmfulResult × List JSRegex :=
  if !enable then (⟨false, none, none⟩, pats)
  else if (harmfulLoop content pats).1 then
    (⟨true, some "Content may contain harmful or violent language",
      some "HARMFUL_CONTENT"⟩, (harmfulLoop content pats).2)
  else (⟨false, none, none⟩, (harmfulLoop content pats).2)

/-! ## Policy engine -/

/-- The V8 message of the `TypeError` thrown by reading `check` on a
nullish value. -/
def nullishCheckMsg (tag : String) : String :=
  "Cannot read properties of " ++ tag ++ " (reading 'check')"

/-- `_evaluatePolicy(policy, content, context)`: call a function-shaped
policy (or an object's `check`), mapping a thrown error to a
`POLICY_ERROR` failure, a boolean to pass/fail with fallback reasons,
and a structured result to itself; any other non-nullish policy passes
with reason `Invalid policy format`.  A nullish entry throws: the
`policy.check` access raises a `TypeError` outside both try/catch
blocks, so it escapes as an error. -/
def _evaluatePolicy (policy : Policy) (content : JSString) (context : String) :
    Except JSError PolicyEval :=
  match policy with
  | .fn _ run =>
    match run content context with
    | .throw msg => .ok ⟨false, some ("Policy error: " ++ msg), some "POLICY_ERROR"⟩
    | .ret (.bool b) => .ok ⟨b, if b then none else some "Policy check failed", none⟩
    | .ret (.obj p r c) => .ok ⟨p, r, c⟩
  | .withCheck _ rsn run =>
    match run content context with
    | .throw msg => .ok ⟨false, some ("Policy error: " ++ msg), some "POLICY_ERROR"⟩
    | .ret (.bool b) =>
      .ok ⟨b, if b then none else some (jsOrStr rsn "Policy check failed"), none⟩
    | .ret (.obj p r c) => .ok ⟨p, r, c⟩
  | .invalid _ => .ok ⟨true, some "Invalid policy format", none⟩
  | .nullish tag => .error (.typeError (nullishCheckMsg tag))

/-- The `applyPolicies` loop: the violations of the failing policies, in
policy order; an uncaught `TypeError` from a nullish entry aborts the
loop and propagates. -/
def policyViolations (content : JSString) (context : String) :
    List Policy → Except JSError (List Violation)
  | [] => .ok []
  | p :: rest =>
    match _evaluatePolicy p content context with
    | .error e => .error e
    | .ok r =>
      match policyViolations content context rest with
      | .error e => .error e
      | .ok tail =>
        .ok (if r.passed then tail
          else ⟨jsOrStr p.nameOf "unnamed", r.reason,
            jsOrStr r.code "POLICY_VIOLATION"⟩ :: tail)

/-- `applyPolicies(content, context)`: pass when no policies are
configured; otherwise evaluate every policy and fail with
`POLICY_VIOLATION` and the full violation list when any failed; a
nullish policy entry's uncaught `TypeError` propagates to the caller. -/
def applyPolicies (policies : List Policy) (content : JSString) (context : String) :
    Except JSError PolicyCheckResult :=
  if policies.isEmpty then .ok ⟨true, none, none, none⟩
  else
    match policyViolations content context policies with
    | .error e => .error e
    | .ok vs =>
      if vs.isEmpty then .ok ⟨true, none, none, none⟩
      else
        .ok ⟨false, some vs, some ("Violated " ++ toString vs.length ++ " policy/policies"),
          some "POLICY_VIOLATION"⟩

/-! ## Verdicts, logging, and the moderation orchestrators -/

/-- The verdict returned by `moderateInput` / `moderateOutput`; absent
JS fields are `none`. -/
structure Verdict where
  allowed : Bool
  reason : Option String
  code : Option String
  action : Option String
  «matches» : Option (List JSString)
  violations : Option (List Violation)
deriving DecidableEq

/-- The `details` payload of a violation log record (the check result
that triggered it). -/
inductive LogDetails where
  | validation (v : ValidationResult)
  | blockedPat (b : BPResult)
  | profanity (p : ProfanityResult)
  | harmful (h : HarmfulResult)
  | policyCheck (p : PolicyCheckResult)
deriving DecidableEq

/-- A structured violation record emitted to the logging surface (the
wall-clock `timestamp` field is not modelled). -/
structure LogEntry where
  type : String
  details : LogDetails
deriving DecidableEq

/-- `_logViolation(type, details)`: emit one record when `logViolations`
is enabled, nothing otherwise. -/
def _logViolation (logViolations : Bool) (type : String) (details : LogDetails) :
    List LogEntry :=
  if logViolations then [⟨type, details⟩] else []

/-- `moderateInput(message)`: validator, pattern filter, profanity filter
(logged always, denying only under `violationAction == 'reject'`),
harmful-content filter, then policy engine; the first hard failure
denies.  Returns the verdict, the engine state (with updated regex
`lastIndex` fields), and the emitted log records in order. -/
def moderateInput (st : GuardrailsState) (message : JSVal) :
    Except JSError (Verdict × GuardrailsState × List LogEntry) :=
  let cfg := st.config
  let validation := validateInput cfg.minMessageLength cfg.maxMessageLength message
  if !validation.valid then
    .ok (⟨false, validation.reason, validation.code, some cfg.violationAction, none, none⟩,
      st, _logViolation cfg.logViolations "input_validation" (.validation validation))
  else
    let s := jsValStr message
    match checkBlockedPatterns cfg.enableContentFilter cfg.blockedPatterns cfg.allowedPatterns s with
    | .error e => .error e
    | .ok bpr =>
      let bp := bpr.1
      let st1 : GuardrailsState :=
        { st with config := { cfg with blockedPatterns := bpr.2.1, allowedPatterns := bpr.2.2 } }
      if bp.blocked then
        .ok (⟨false, bp.reason, bp.code, some cfg.violationAction, none, none⟩, st1,
          _logViolation cfg.logViolations "blocked_pattern" (.blockedPat bp))
      else
        let pr := checkProfanity cfg.enableProfanityFilter st.profanityPatterns s
        let pf := pr.1
        let st2 : GuardrailsState := { st1 with profanityPatterns := pr.2 }
        let profLog :=
          if pf.hasProfanity then
            _logViolation cfg.logViolations "profanity" (.profanity pf)
          else []
        if pf.hasProfanity && cfg.violationAction == "reject" then
          .ok (⟨false, pf.reason, pf.code, some cfg.violationAction, pf.«matches», none⟩,
            st2, profLog)
        else
          let hr := checkHarmfulContent cfg.enableContentFilter st.harmfulPatterns s
          let hf := hr.1
          let st3 : GuardrailsState := { st2 with harmfulPatterns := hr.2 }
          if hf.isHarmful then
            .ok (⟨false, hf.reason, hf.code, some cfg.violationAction, none, none⟩, st3,
              profLog ++ _logViolation cfg.logViolations "harmful_content" (.harmful hf))
          else
            match applyPolicies cfg.policies s "input" with
            | .error e => .error e
            | .ok pc =>
              if !pc.passed then
                .ok (⟨false, pc.reason, pc.code, some cfg.violationAction, none, pc.violations⟩,
                  st3, profLog ++ _logViolation cfg.logViolations "policy_violation" (.policyCheck pc))
              else
                .ok (⟨true, none, none, none, none, none⟩, st3, profLog)

/-- `moderateOutput(content)`: no-op when output moderation is off;
otherwise length check (this denial path calls no `_logViolation` in the
source and attaches no `action`), then pattern filter, then policy
engine with context `'output'`. -/
def moderateOutput (st : GuardrailsState) (content : JSString) :
    Except JSError (Verdict × GuardrailsState × List LogEntry) :=
  let cfg := st.config
  if !cfg.enableOutputModeration then
    .ok (⟨true, none, none, none, none, none⟩, st, [])
  else if content.length > cfg.maxResponseLength then
    .ok (⟨false, some ("Response too long. Maximum length: " ++ toString cfg.maxResponseLength),
      some "RESPONSE_TOO_LONG", none, none, none⟩, st, [])
  else
    match checkBlockedPatterns cfg.enableContentFilter cfg.blockedPatterns cfg.allowedPatterns content with
    | .error e => .error e
    | .ok bpr =>
      let bp := bpr.1
      let st1 : GuardrailsState :=
        { st with config := { cfg with blockedPatterns := bpr.2.1, allowedPatterns := bpr.2.2 } }
      if bp.blocked then
        .ok (⟨false, bp.reason, bp.code, some cfg.violationAction, none, none⟩, st1,
          _logViolation cfg.logViolations "output_blocked_pattern" (.blockedPat bp))
      else
        match applyPolicies cfg.policies content "output" with
        | .error e => .error e
        | .ok pc =>
          if !pc.passed then
            .ok (⟨false, pc.reason, pc.code, some cfg.violationAction, none, pc.violations⟩, st1,
              _logViolation cfg.logViolations "output_policy_violation" (.policyCheck pc))
          else .ok (⟨true, none, none, none, none, none⟩, st1, [])

/-! ## Derived definitions used by the theorems -/

/-- Replace the configured policy list of an engine (all other fields
untouched). -/
def withPolicies (st : GuardrailsState) (ps : List Policy) : GuardrailsState :=
  { st with config := { st.config with policies := ps } }

/-- The caller-observable part of a moderation result: the verdict and
the emitted log records (the engine state is internal). -/
def pickVL (r : Verdict × GuardrailsState × List LogEntry) : Verdict × List LogEntry :=
  (r.1, r.2.2)

/-- A pattern entry whose match test is stateless as currently stored:
a string entry with compilable syntax, or a regex whose `lastIndex` is
`0` (a freshly constructed regex object). -/
def patFresh : BlockedPattern → Bool
  | .str _ c => c.isSome
  | .re r => r.lastIndex == 0

/-- Whether the text matches a pattern entry in the stateless sense
(search from index 0); `false` for a malformed string entry. -/
def patMatches (p : BlockedPattern) (s : JSString) : Bool :=
  match p with
  | .str _ (some m) => (m s 0).isSome
  | .str _ none => false
  | .re r => (r.matcher s 0).isSome

/-- An engine built with all-default options. -/
def G0 : GuardrailsState := mkGuardrails emptyOptions

/-- An engine with `violationAction: 'warn'` and defaults otherwise. -/
def GWarn : GuardrailsState :=
  mkGuardrails { emptyOptions with violationAction := some "warn" }

/-- An engine with `violationAction: 'allow'` and defaults otherwise. -/
def GAllow : GuardrailsState :=
  mkGuardrails { emptyOptions with violationAction := some "allow" }

/-- An engine with `maxResponseLength: 5` and defaults otherwise. -/
def GMax5 : GuardrailsState :=
  mkGuardrails { emptyOptions with maxResponseLength := some 5 }

/-- An engine configured with one syntactically invalid blocked-pattern
string (`"("` does not compile to a regular expression). -/
def GBadPattern : GuardrailsState :=
  mkGuardrails { emptyOptions with blockedPatterns := some [.str "(" none] }

/-- The regex object `/^HELLO/i` from the spec's allowlist example: a
non-global, case-insensitive, anchored match of the prefix `HELLO`. -/
def helloAllowed : BlockedPattern :=
  .re { matcher := fun t i =>
          if i = 0 && matchesAtCI ("hello".toList) t then some (0, 5) else none
        global := false
        lastIndex := 0
        srcRepr := "/^HELLO/i" }

/-- An engine with `allowedPatterns: [/^HELLO/i]`, no blocked patterns,
and defaults otherwise. -/
def GAllowList : GuardrailsState :=
  mkGuardrails { emptyOptions with allowedPatterns := some (some [helloAllowed]) }

/-- The message `"kill"`. -/
def killMsg : JSVal := .str ("kill".toList)

/-- The message `"what the damn hell"`. -/
def damnMsg : JSVal := .str ("what the damn hell".toList)

/-- An always-throwing policy predicate. -/
def throwingRun : JSString → String → PolicyCall := fun _ _ => .throw "boom"

/-- An always-passing policy predicate (returns the boolean `true`). -/
def passingRun : JSString → String → PolicyCall := fun _ _ => .ret (.bool true)

/-- An engine whose policy list contains a single `null` entry, defaults
otherwise. -/
def GNullPolicy : GuardrailsState :=
  mkGuardrails { emptyOptions with policies := some [.nullish "null"] }

/-- A non-global regex object matching the word `abc`. -/
def abcRegex : JSRegex :=
  { matcher := wordAltMatcher ["abc"]
    global := false
    lastIndex := 0
    srcRepr := "/\\babc\\b/i" }

/-- An engine with `maxMessageLength: 5` and a blocked pattern matching
the word `abc`, defaults otherwise. -/
def GMsg5 : GuardrailsState :=
  mkGuardrails { emptyOptions with
    maxMessageLength := some 5
    blockedPatterns := some [.re abcRegex] }

/-! ## Helper lemmas -/

theorem mem_jsSetDedupAux {x : JSString} :
    ∀ {fuel : Nat} {l : List JSString}, x ∈ jsSetDedupAux fuel l → x ∈ l := by
  intro fuel
  induction fuel with
  | zero => intro l h; simp [jsSetDedupAux] at h
  | succ n ih =>
    intro l h
    cases l with
    | nil => simp [jsSetDedupAux] at h
    | cons a rest =>
      rw [jsSetDedupAux] at h
      rcases List.mem_cons.mp h with rfl | h'
      · exact List.mem_cons_self _ _
      · exact List.mem_cons_of_mem _ (List.mem_of_mem_filter (ih h'))

theorem mem_jsSetDedup {x : JSString} {l : List JSString} (h : x ∈ jsSetDedup l) : x ∈ l :=
  mem_jsSetDedupAux h

theorem jsSetDedupAux_nodup : ∀ (fuel : Nat) (l : List JSString), (jsSetDedupAux fuel l).Nodup := by
  intro fuel
  induction fuel with
  | zero => intro l; simp [jsSetDedupAux]
  | succ n ih =>
    intro l
    cases l with
    | nil => simp [jsSetDedupAux]
    | cons a rest =>
      rw [jsSetDedupAux]
      refine List.nodup_cons.mpr ⟨fun hmem => ?_, ih _⟩
      have := List.of_mem_filter (mem_jsSetDedupAux hmem)
      simp at this

theorem jsSetDedup_nodup (l : List JSString) : (jsSetDedup l).Nodup :=
  jsSetDedupAux_nodup _ _

theorem checkProfanity_pos_fields {enable : Bool} {pats : List JSRegex} {content : JSString}
    {pf : ProfanityResult} {pats' : List JSRegex}
    (h : checkProfanity enable pats content = (pf, pats'))
    (hpos : pf.hasProfanity = true) :
    enable = true ∧
    pf = ⟨true, some (jsSetDedup (profanityLoop content pats).1),
      some "Content contains profanity", some "PROFANITY_DETECTED"⟩ := by
  rw [checkProfanity] at h
  cases enable with
  | false =>
    simp only [Bool.not_false, if_pos] at h
    rw [Prod.mk.injEq] at h
    rw [← h.1] at hpos
    simp at hpos
  | true =>
    simp only [Bool.not_true, Bool.false_eq_true, if_false] at h
    by_cases he : (profanityLoop content pats).1.isEmpty
    · rw [if_pos he] at h
      rw [Prod.mk.injEq] at h
      rw [← h.1] at hpos
      simp at hpos
    · rw [if_neg he] at h
      rw [Prod.mk.injEq] at h
      exact ⟨rfl, h.1.symm⟩

theorem checkHarmfulContent_pos_fields {enable : Bool} {pats : List JSRegex} {content : JSString}
    {hf : HarmfulResult} {pats' : List JSRegex}
    (h : checkHarmfulContent enable pats content = (hf, pats'))
    (hpos : hf.isHarmful = true) :
    enable = true ∧
    hf = ⟨true, some "Content may contain harmful or violent language",
      some "HARMFUL_CONTENT"⟩ := by
  rw [checkHarmfulContent] at h
  cases enable with
  | false =>
    simp only [Bool.not_false, if_pos] at h
    rw [Prod.mk.injEq] at h
    rw [← h.1] at hpos
    simp at hpos
  | true =>
    simp only [Bool.not_true, Bool.false_eq_true, if_false] at h
    by_cases hb : (harmfulLoop content pats).1 = true
    · rw [if_pos hb] at h
      rw [Prod.mk.injEq] at h
      exact ⟨rfl, h.1.symm⟩
    · rw [if_neg hb] at h
      rw [Prod.mk.injEq] at h
      rw [← h.1] at hpos
      simp at hpos

theorem policyViolations_append (content : JSString) (context : String)
    (l1 l2 : List Policy) (v1 v2 : List Violation)
    (h1 : policyViolations content context l1 = .ok v1)
    (h2 : policyViolations content context l2 = .ok v2) :
    policyViolations content context (l1 ++ l2) = .ok (v1 ++ v2) := by
  induction l1 generalizing v1 with
  | nil =>
    rw [policyViolations] at h1
    cases h1
    simpa using h2
  | cons p rest ih =>
    rw [policyViolations] at h1
    rw [List.cons_append, policyViolations]
    cases he : _evaluatePolicy p content context with
    | error e => rw [he] at h1; cases h1
    | ok r =>
      rw [he] at h1
      cases hr : policyViolations content context rest with
      | error e => rw [hr] at h1; cases h1
      | ok tail =>
        rw [hr] at h1
        rw [ih tail hr]
        cases h1
        cases hp : r.passed with
        | true => simp [hp]
        | false => simp [hp]

theorem policyViolations_invalid_skipped (content : JSString) (context : String)
    (ps1 ps2 : List Policy) (name : Option String) :
    policyViolations content context (ps1 ++ .invalid name :: ps2) =
      policyViolations content context (ps1 ++ ps2) := by
  induction ps1 with
  | nil =>
    simp only [List.nil_append]
    rw [policyViolations]
    cases h : policyViolations content context ps2 with
    | error e => rfl
    | ok tail => rfl
  | cons p rest ih =>
    rw [List.cons_append, List.cons_append, policyViolations, policyViolations, ih]

theorem applyPolicies_invalid_skipped (content : JSString) (context : String)
    (ps1 ps2 : List Policy) (name : Option String) :
    applyPolicies (ps1 ++ .invalid name :: ps2) content context =
      applyPolicies (ps1 ++ ps2) content context := by
  rw [applyPolicies, applyPolicies]
  rw [policyViolations_invalid_skipped]
  have hne : (ps1 ++ Policy.invalid name :: ps2).isEmpty = false := by
    cases ps1 <;> rfl
  rw [hne]
  simp only [Bool.false_eq_true, if_false]
  by_cases he : (ps1 ++ ps2).isEmpty = true
  · have hnil : ps1 ++ ps2 = [] := List.isEmpty_iff.mp he
    rw [he, hnil]
    simp [policyViolations]
  · rw [eq_false_of_ne_true he]
    simp only [Bool.false_eq_true, if_false]

theorem testBlockedPattern_fresh (p : BlockedPattern) (s : JSString)
    (h : patFresh p = true) :
    ∃ p', testBlockedPattern p s = .ok (patMatches p s, p') := by
  cases p with
  | str src c =>
    cases c with
    | none => simp [patFresh] at h
    | some m => exact ⟨.str src (some m), rfl⟩
  | re r =>
    have hl : r.lastIndex = 0 := by simpa [patFresh] using h
    refine ⟨.re (jsTest r s).2, ?_⟩
    rw [testBlockedPattern]
    have h1 : (jsTest r s).1 = patMatches (.re r) s := by
      rw [jsTest, patMatches, hl]
      cases hg : r.global <;>
        cases hm : r.matcher s 0 <;>
          simp [hm]
    rw [h1]

theorem runAllowedLoop_fresh (s : JSString) (l : List BlockedPattern)
    (h : ∀ p ∈ l, patFresh p = true) :
    ∃ l', runAllowedLoop s l = .ok (l.any (fun p => patMatches p s), l') := by
  induction l with
  | nil => exact ⟨[], rfl⟩
  | cons p rest ih =>
    obtain ⟨p', hp⟩ := testBlockedPattern_fresh p s (h p (List.mem_cons_self _ _))
    obtain ⟨rest', hrest⟩ := ih (fun q hq => h q (List.mem_cons_of_mem _ hq))
    cases hm : patMatches p s with
    | true =>
      refine ⟨p' :: rest, ?_⟩
      rw [runAllowedLoop, hp, hm]
      simp [hm]
    | false =>
      refine ⟨p' :: rest', ?_⟩
      rw [runAllowedLoop, hp, hm]
      simp only [Bool.false_eq_true, if_false, hrest, List.any_cons, hm, Bool.false_or]

theorem runBlockedLoop_fresh_none (s : JSString) (l : List BlockedPattern)
    (hf : ∀ p ∈ l, patFresh p = true) (hn : ∀ p ∈ l, patMatches p s = false) :
    ∃ l', runBlockedLoop s l = .ok (none, l') := by
  induction l with
  | nil => exact ⟨[], rfl⟩
  | cons p rest ih =>
    obtain ⟨p', hp⟩ := testBlockedPattern_fresh p s (hf p (List.mem_cons_self _ _))
    obtain ⟨rest', hrest⟩ :=
      ih (fun q hq => hf q (List.mem_cons_of_mem _ hq))
         (fun q hq => hn q (List.mem_cons_of_mem _ hq))
    refine ⟨p' :: rest', ?_⟩
    rw [runBlockedLoop, hp, hn p (List.mem_cons_self _ _)]
    simp only [Bool.false_eq_true, if_false, hrest]

theorem moderateInput_policies_congr (st : GuardrailsState) (P1 P2 : List Policy)
    (input : JSVal)
    (hp : ∀ s ctx, applyPolicies P1 s ctx = applyPolicies P2 s ctx) :
    (moderateInput (withPolicies st P1) input).map pickVL =
      (moderateInput (withPolicies st P2) input).map pickVL := by
  rw [moderateInput, moderateInput]
  simp only [withPolicies, hp]
  cases hv : (validateInput st.config.minMessageLength st.config.maxMessageLength input).valid with
  | false => simp [Except.map, pickVL]
  | true =>
    simp only [Bool.not_true, Bool.false_eq_true, if_false]
    cases hbp : checkBlockedPatterns st.config.enableContentFilter st.config.blockedPatterns
        st.config.allowedPatterns (jsValStr input) with
    | error e => rfl
    | ok bpr =>
      by_cases hb : bpr.1.blocked = true
      · simp [hb, Except.map, pickVL]
      · simp only [hb, Bool.false_eq_true, if_false, Except.map, pickVL]
        by_cases hpf : (checkProfanity st.config.enableProfanityFilter st.profanityPatterns
            (jsValStr input)).1.hasProfanity = true
        · by_cases ha : st.config.violationAction == "reject"
          · simp [hpf, ha, Except.map, pickVL]
          · simp only [hpf, ha, Bool.and_false, Bool.false_eq_true, if_false, Except.map, pickVL]
            by_cases hh : (checkHarmfulContent st.config.enableContentFilter st.harmfulPatterns
                (jsValStr input)).1.isHarmful = true
            · simp [hh, Except.map, pickVL]
            · cases hpc : applyPolicies P2 (jsValStr input) "input" with
              | error e => simp [hh, hpc, Except.map, pickVL]
              | ok pc =>
                by_cases hps : pc.passed = true
                · simp [hh, hpc, hps, Except.map, pickVL]
                · simp [hh, hpc, hps, Except.map, pickVL]
        · simp only [hpf, Bool.false_eq_true, Bool.false_and, if_false, Except.map, pickVL]
          by_cases hh : (checkHarmfulContent st.config.enableContentFilter st.harmfulPatterns
              (jsValStr input)).1.isHarmful = true
          · simp [hh, Except.map, pickVL]
          · cases hpc : applyPolicies P2 (jsValStr input) "input" with
            | error e => simp [hh, hpc, Except.map, pickVL]
            | ok pc =>
              by_cases hps : pc.passed = true
              · simp [hh, hpc, hps, Except.map, pickVL]
              · simp [hh, hpc, hps, Except.map, pickVL]

theorem moderateOutput_policies_congr (st : GuardrailsState) (P1 P2 : List Policy)
    (content : JSString)
    (hp : ∀ s ctx, applyPolicies P1 s ctx = applyPolicies P2 s ctx) :
    (moderateOutput (withPolicies st P1) content).map pickVL =
      (moderateOutput (withPolicies st P2) content).map pickVL := by
  rw [moderateOutput, moderateOutput]
  simp only [withPolicies, hp]
  by_cases hm : st.config.enableOutputModeration = true
  · simp only [hm, Bool.not_true, Bool.false_eq_true, if_false]
    by_cases hl : st.config.maxResponseLength < content.length
    · simp [hl, Except.map, pickVL]
    · simp only [hl, if_false]
      cases hbp : checkBlockedPatterns st.config.enableContentFilter st.config.blockedPatterns
          st.config.allowedPatterns content with
      | error e => rfl
      | ok bpr =>
        by_cases hb : bpr.1.blocked = true
        · simp [hb, Except.map, pickVL]
        · cases hpc : applyPolicies P2 content "output" with
          | error e => simp [hb, hpc, Except.map, pickVL]
          | ok pc =>
            by_cases hps : pc.passed = true
            · simp [hb, hpc, hps, Except.map, pickVL]
            · simp [hb, hpc, hps, Except.map, pickVL]
  · simp [hm, Except.map, pickVL]

/-! ## Claim theorems -/

/-- C1: the claim says two successive `moderateInput` calls with the same
text on the same engine return identical verdicts.  The code violates
this: the default harmful pattern is a `g`-flagged regex whose
`lastIndex` survives between calls, so on the default engine the message
`"kill"` is denied with `HARMFUL_CONTENT` on the first call and allowed
on the second. -/
theorem C1_determinism_violated :
    ((moderateInput G0 killMsg).toOption.map fun r => (r.1.allowed, r.1.code)) =
      some (false, some "HARMFUL_CONTENT") ∧
    (((moderateInput G0 killMsg).toOption.bind fun r =>
        (moderateInput r.2.1 killMsg).toOption).map fun r => (r.1.allowed, r.1.code)) =
      some (true, none) :=
  ⟨rfl, rfl⟩

/-- C4: the claim says every denial path logs when `logViolations` is
true.  The code violates this on exactly one path: a `moderateOutput`
denial with code `RESPONSE_TOO_LONG` emits no log record even though
`logViolations` is enabled. -/
theorem C4_response_too_long_denial_unlogged :
    GMax5.config.logViolations = true ∧
    (moderateOutput GMax5 ("helloworld".toList)).toOption.map
        (fun r => (r.1.allowed, r.1.code, r.2.2)) =
      some (false, some "RESPONSE_TOO_LONG", ([] : List LogEntry)) :=
  ⟨rfl, rfl⟩

/-- C9: `configure(partial)` is a shallow merge: every provided field
fully overwrites the corresponding configuration field, every absent
field retains its prior value, and provided `profanityPatterns` /
`harmfulPatterns` fully replace the stored pattern sets. -/
theorem C9_configure_shallow_merge (st : GuardrailsState) (o : Options) :
    (configure st o).config.maxMessageLength =
      o.maxMessageLength.getD st.config.maxMessageLength ∧
    (configure st o).config.minMessageLength =
      o.minMessageLength.getD st.config.minMessageLength ∧
    (configure st o).config.enableContentFilter =
      o.enableContentFilter.getD st.config.enableContentFilter ∧
    (configure st o).config.blockedPatterns =
      o.blockedPatterns.getD st.config.blockedPatterns ∧
    (configure st o).config.allowedPatterns =
      o.allowedPatterns.getD st.config.allowedPatterns ∧
    (configure st o).config.enableProfanityFilter =
      o.enableProfanityFilter.getD st.config.enableProfanityFilter ∧
    (configure st o).config.enableOutputModeration =
      o.enableOutputModeration.getD st.config.enableOutputModeration ∧
    (configure st o).config.maxResponseLength =
      o.maxResponseLength.getD st.config.maxResponseLength ∧
    (configure st o).config.policies = o.policies.getD st.config.policies ∧
    (configure st o).config.logViolations =
      o.logViolations.getD st.config.logViolations ∧
    (configure st o).config.violationAction =
      o.violationAction.getD st.config.violationAction ∧
    (configure st o).profanityPatterns =
      o.profanityPatterns.getD st.profanityPatterns ∧
    (configure st o).harmfulPatterns = o.harmfulPatterns.getD st.harmfulPatterns :=
  ⟨rfl, rfl, rfl, rfl, rfl, rfl, rfl, rfl, rfl, rfl, rfl, rfl, rfl⟩

/-- C7: a message longer than `maxMessageLength` is denied by
`moderateInput` with `MESSAGE_TOO_LONG` (never `BLOCKED_PATTERN`,
whatever the blocked patterns), and inside `validateInput` the checks
run in the fixed order `INVALID_TYPE`, `MESSAGE_TOO_SHORT`,
`MESSAGE_TOO_LONG`, `EMPTY_MESSAGE` with the first failure
short-circuiting. -/
theorem C7_validator_precedes_pattern_filter :
    (∀ (st : GuardrailsState) (s : JSString),
        st.config.minMessageLength ≤ st.config.maxMessageLength →
        s.length > st.config.maxMessageLength →
        moderateInput st (.str s) = .ok
          (⟨false,
            some ("Message too long. Maximum length: " ++ toString st.config.maxMessageLength),
            some "MESSAGE_TOO_LONG", some st.config.violationAction, none, none⟩, st,
            _logViolation st.config.logViolations "input_validation"
              (.validation ⟨false,
                some ("Message too long. Maximum length: " ++ toString st.config.maxMessageLength),
                some "MESSAGE_TOO_LONG"⟩))) ∧
    (∀ (minLen maxLen : Nat) (tag : String),
        validateInput minLen maxLen (.nonString tag) =
          ⟨false, some "Message must be a string", some "INVALID_TYPE"⟩) ∧
    (∀ (minLen maxLen : Nat) (s : JSString), s.length < minLen →
        (validateInput minLen maxLen (.str s)).code = some "MESSAGE_TOO_SHORT") ∧
    (∀ (minLen maxLen : Nat) (s : JSString), ¬ s.length < minLen → s.length > maxLen →
        (validateInput minLen maxLen (.str s)).code = some "MESSAGE_TOO_LONG") ∧
    (∀ (minLen maxLen : Nat) (s : JSString), ¬ s.length < minLen → ¬ s.length > maxLen →
        (jsTrim s).isEmpty = true →
        (validateInput minLen maxLen (.str s)).code = some "EMPTY_MESSAGE") ∧
    (∀ (minLen maxLen : Nat) (s : JSString), ¬ s.length < minLen → ¬ s.length > maxLen →
        (jsTrim s).isEmpty = false →
        validateInput minLen maxLen (.str s) = ⟨true, none, none⟩) := by
  refine ⟨?_, ?_, ?_, ?_, ?_, ?_⟩
  · intro st s h1 h2
    have hns : ¬ s.length < st.config.minMessageLength := by omega
    have hval : validateInput st.config.minMessageLength st.config.maxMessageLength (.str s) =
        ⟨false, some ("Message too long. Maximum length: " ++ toString st.config.maxMessageLength),
          some "MESSAGE_TOO_LONG"⟩ := by
      simp only [validateInput]
      rw [if_neg hns, if_pos h2]
    rw [moderateInput, hval]
    rfl
  · intro minLen maxLen tag
    rfl
  · intro minLen maxLen s h
    simp only [validateInput]
    rw [if_pos h]
  · intro minLen maxLen s h1 h2
    simp only [validateInput]
    rw [if_neg h1, if_pos h2]
  · intro minLen maxLen s h1 h2 h3
    simp only [validateInput]
    rw [if_neg h1, if_neg h2, if_pos h3]
  · intro minLen maxLen s h1 h2 h3
    simp only [validateInput]
    rw [if_neg h1, if_neg h2, if_neg (by simp [h3])]

/-- Witness for C7 at concrete inputs: `GMsg5` caps messages at five
characters and blocks the word `abc`; the eight-character message
`"abc defg"` (which matches the blocked pattern) fails with
`MESSAGE_TOO_LONG`, and each validator stage fires on its own input. -/
theorem C7_validator_precedes_pattern_filter_witness :
    moderateInput GMsg5 (.str ("abc defg".toList)) = .ok
      (⟨false,
        some ("Message too long. Maximum length: " ++ toString GMsg5.config.maxMessageLength),
        some "MESSAGE_TOO_LONG", some GMsg5.config.violationAction, none, none⟩, GMsg5,
        _logViolation GMsg5.config.logViolations "input_validation"
          (.validation ⟨false,
            some ("Message too long. Maximum length: " ++ toString GMsg5.config.maxMessageLength),
            some "MESSAGE_TOO_LONG"⟩)) ∧
    validateInput 1 5 (.nonString "number") =
      ⟨false, some "Message must be a string", some "INVALID_TYPE"⟩ ∧
    (validateInput 3 5 (.str ("ab".toList))).code = some "MESSAGE_TOO_SHORT" ∧
    (validateInput 1 5 (.str ("abcdef".toList))).code = some "MESSAGE_TOO_LONG" ∧
    (validateInput 1 5 (.str ("   ".toList))).code = some "EMPTY_MESSAGE" ∧
    validateInput 1 5 (.str ("abc".toList)) = ⟨true, none, none⟩ := by
  have h := C7_validator_precedes_pattern_filter
  exact ⟨h.1 GMsg5 _ (by decide) (by decide),
    h.2.1 1 5 "number",
    h.2.2.1 3 5 _ (by decide),
    h.2.2.2.1 1 5 _ (by decide) (by decide),
    h.2.2.2.2.1 1 5 _ (by decide) (by decide) (by decide),
    h.2.2.2.2.2 1 5 _ (by decide) (by decide) (by decide)⟩

/-- C3: an input that passes validation, the pattern filter, and the
profanity gate but is flagged by the harmful-content filter is denied
with `HARMFUL_CONTENT` for every `violationAction` value — the
harmful-content denial never consults `violationAction`. -/
theorem C3_harmful_hard_denial (st : GuardrailsState) (s : JSString)
    (bpr : BPResult × List BlockedPattern × Option (List BlockedPattern))
    (hr : HarmfulResult × List JSRegex)
    (hval : (validateInput st.config.minMessageLength st.config.maxMessageLength
      (.str s)).valid = true)
    (hbp : checkBlockedPatterns st.config.enableContentFilter st.config.blockedPatterns
      st.config.allowedPatterns s = .ok bpr)
    (hnb : bpr.1.blocked = false)
    (hgate : (checkProfanity st.config.enableProfanityFilter
        st.profanityPatterns s).1.hasProfanity = false ∨
      st.config.violationAction ≠ "reject")
    (hhf : checkHarmfulContent st.config.enableContentFilter st.harmfulPatterns s = hr)
    (hh : hr.1.isHarmful = true) :
    moderateInput st (.str s) = .ok
      (⟨false, hr.1.reason, hr.1.code, some st.config.violationAction, none, none⟩,
        ⟨{ st.config with blockedPatterns := bpr.2.1, allowedPatterns := bpr.2.2 },
          (checkProfanity st.config.enableProfanityFilter st.profanityPatterns s).2, hr.2⟩,
        (if (checkProfanity st.config.enableProfanityFilter
            st.profanityPatterns s).1.hasProfanity then
          _logViolation st.config.logViolations "profanity"
            (.profanity (checkProfanity st.config.enableProfanityFilter
              st.profanityPatterns s).1)
        else []) ++
          _logViolation st.config.logViolations "harmful_content" (.harmful hr.1)) ∧
    hr.1.code = some "HARMFUL_CONTENT" := by
  have hhf2 : checkHarmfulContent st.config.enableContentFilter st.harmfulPatterns s =
      (hr.1, hr.2) := hhf
  have hfields := (checkHarmfulContent_pos_fields hhf2 hh).2
  constructor
  · rw [moderateInput]
    simp only [hval, Bool.not_true, Bool.false_eq_true, if_false, jsValStr]
    rw [hbp]
    simp only [hnb, Bool.false_eq_true, if_false]
    rcases hgate with hpf | ha
    · simp only [hpf, Bool.false_and, Bool.false_eq_true, if_false]
      rw [hhf, if_pos hh]
    · have hbeq : (st.config.violationAction == "reject") = false :=
        beq_eq_false_iff_ne.mpr ha
      simp only [hbeq, Bool.and_false, Bool.false_eq_true, if_false]
      rw [hhf, if_pos hh]
  · rw [hfields]

/-- Witness for C3: the engine with `violationAction: 'allow'` still
denies the message `"kill"` with `HARMFUL_CONTENT`. -/
theorem C3_harmful_hard_denial_witness :
    moderateInput GAllow killMsg = .ok
      (⟨false, some "Content may contain harmful or violent language",
        some "HARMFUL_CONTENT", some GAllow.config.violationAction, none, none⟩,
        ⟨{ GAllow.config with blockedPatterns := [], allowedPatterns := none },
          [defaultProfanityRegex], [{ defaultHarmfulRegex with lastIndex := 4 }]⟩,
        [⟨"harmful_content", .harmful ⟨true,
          some "Content may contain harmful or violent language",
          some "HARMFUL_CONTENT"⟩⟩]) ∧
    (⟨true, some "Content may contain harmful or violent language",
      some "HARMFUL_CONTENT"⟩ : HarmfulResult).code = some "HARMFUL_CONTENT" :=
  C3_harmful_hard_denial GAllow ("kill".toList) (⟨false, none, none, none⟩, [], none)
    (⟨true, some "Content may contain harmful or violent language",
      some "HARMFUL_CONTENT"⟩, [{ defaultHarmfulRegex with lastIndex := 4 }])
    rfl rfl rfl (Or.inl rfl) rfl rfl

/-- C2: a profane input that passes validation and the pattern filter is
reported with the de-duplicated list of matched substrings; under
`violationAction = 'reject'` `moderateInput` denies with
`PROFANITY_DETECTED`, while under `'warn'` or `'allow'` (with no harmful
hit and passing policies) it returns `allowed: true`, the profanity
violation having been logged either way. -/
theorem C2_profanity_conditional_deny (st : GuardrailsState) (s : JSString)
    (bpr : BPResult × List BlockedPattern × Option (List BlockedPattern))
    (hval : (validateInput st.config.minMessageLength st.config.maxMessageLength
      (.str s)).valid = true)
    (hbp : checkBlockedPatterns st.config.enableContentFilter st.config.blockedPatterns
      st.config.allowedPatterns s = .ok bpr)
    (hnb : bpr.1.blocked = false)
    (hpf : (checkProfanity st.config.enableProfanityFilter
      st.profanityPatterns s).1.hasProfanity = true)
    (hlog : st.config.logViolations = true) :
    ((checkProfanity st.config.enableProfanityFilter st.profanityPatterns s).1.«matches» =
      some (jsSetDedup (profanityLoop s st.profanityPatterns).1) ∧
      ∀ ms, (checkProfanity st.config.enableProfanityFilter
        st.profanityPatterns s).1.«matches» = some ms → ms.Nodup) ∧
    (st.config.violationAction = "reject" →
      (moderateInput st (.str s) = .ok
        (⟨false,
          (checkProfanity st.config.enableProfanityFilter st.profanityPatterns s).1.reason,
          (checkProfanity st.config.enableProfanityFilter st.profanityPatterns s).1.code,
          some st.config.violationAction,
          (checkProfanity st.config.enableProfanityFilter st.profanityPatterns s).1.«matches»,
          none⟩,
          ⟨{ st.config with blockedPatterns := bpr.2.1, allowedPatterns := bpr.2.2 },
            (checkProfanity st.config.enableProfanityFilter st.profanityPatterns s).2,
            st.harmfulPatterns⟩,
          [⟨"profanity", .profanity (checkProfanity st.config.enableProfanityFilter
            st.profanityPatterns s).1⟩]) ∧
        (checkProfanity st.config.enableProfanityFilter
          st.profanityPatterns s).1.code = some "PROFANITY_DETECTED")) ∧
    ((st.config.violationAction = "warn" ∨ st.config.violationAction = "allow") →
      ∀ hr : HarmfulResult × List JSRegex,
        checkHarmfulContent st.config.enableContentFilter st.harmfulPatterns s = hr →
        hr.1.isHarmful = false →
        ∀ pcr : PolicyCheckResult,
        applyPolicies st.config.policies s "input" = .ok pcr →
        pcr.passed = true →
        moderateInput st (.str s) = .ok
          (⟨true, none, none, none, none, none⟩,
            ⟨{ st.config with blockedPatterns := bpr.2.1, allowedPatterns := bpr.2.2 },
              (checkProfanity st.config.enableProfanityFilter st.profanityPatterns s).2,
              hr.2⟩,
            [⟨"profanity", .profanity (checkProfanity st.config.enableProfanityFilter
              st.profanityPatterns s).1⟩])) := by
  have h0 : checkProfanity st.config.enableProfanityFilter st.profanityPatterns s =
      ((checkProfanity st.config.enableProfanityFilter st.profanityPatterns s).1,
        (checkProfanity st.config.enableProfanityFilter st.profanityPatterns s).2) := rfl
  have hpf2 := (checkProfanity_pos_fields h0 hpf).2
  refine ⟨⟨?_, ?_⟩, ?_, ?_⟩
  · rw [hpf2]
  · intro ms hms
    rw [hpf2] at hms
    cases hms
    exact jsSetDedup_nodup _
  · intro ha
    have hbeq : (st.config.violationAction == "reject") = true := by
      rw [ha]
      rfl
    constructor
    · rw [moderateInput]
      simp only [hval, Bool.not_true, Bool.false_eq_true, if_false, jsValStr]
      rw [hbp]
      simp only [hnb, Bool.false_eq_true, if_false, hpf, hbeq, Bool.and_self, if_true,
        hlog, _logViolation]
    · rw [hpf2]
  · intro hact hr hhf hnh pcr hpc hps
    have hbeq : (st.config.violationAction == "reject") = false := by
      rcases hact with h | h <;> rw [h] <;> rfl
    rw [moderateInput]
    simp only [hval, Bool.not_true, Bool.false_eq_true, if_false, jsValStr]
    rw [hbp]
    simp only [hnb, Bool.false_eq_true, if_false, hpf, hbeq, Bool.and_false]
    rw [hhf]
    simp only [hnh, Bool.false_eq_true, if_false]
    rw [hpc]
    simp only [hps, Bool.not_true, Bool.false_eq_true, if_false,
      hlog, _logViolation, if_true]

/-- Witness for C2: on the default (reject) engine the message
`"what the damn hell"` is denied with `PROFANITY_DETECTED` and the
de-duplicated matches `["damn", "hell"]`; on the warn engine the same
message is allowed and the profanity violation is the logged record. -/
theorem C2_profanity_conditional_deny_witness :
    moderateInput G0 damnMsg = .ok
      (⟨false, some "Content contains profanity", some "PROFANITY_DETECTED",
        some G0.config.violationAction, some ["damn".toList, "hell".toList], none⟩,
        ⟨{ G0.config with blockedPatterns := [], allowedPatterns := none },
          [defaultProfanityRegex], G0.harmfulPatterns⟩,
        [⟨"profanity", .profanity ⟨true, some ["damn".toList, "hell".toList],
          some "Content contains profanity", some "PROFANITY_DETECTED"⟩⟩]) ∧
    moderateInput GWarn damnMsg = .ok
      (⟨true, none, none, none, none, none⟩,
        ⟨{ GWarn.config with blockedPatterns := [], allowedPatterns := none },
          [defaultProfanityRegex], [defaultHarmfulRegex]⟩,
        [⟨"profanity", .profanity ⟨true, some ["damn".toList, "hell".toList],
          some "Content contains profanity", some "PROFANITY_DETECTED"⟩⟩]) := by
  have h1 := C2_profanity_conditional_deny G0 ("what the damn hell".toList)
    (⟨false, none, none, none⟩, [], none) rfl rfl rfl rfl rfl
  have h2 := C2_profanity_conditional_deny GWarn ("what the damn hell".toList)
    (⟨false, none, none, none⟩, [], none) rfl rfl rfl rfl rfl
  exact ⟨(h1.2.1 rfl).1,
    h2.2.2 (Or.inl rfl) (⟨false, none, none⟩, [defaultHarmfulRegex]) rfl rfl
      ⟨true, none, none, none⟩ rfl rfl⟩

/-- C5 counterexample: the claim says a syntactically invalid pattern
string faults at construction/configure time and that
`moderateInput` never raises a pattern-compilation error.  In the code,
construction stores the raw string `"("` without a fault, and the first
`moderateInput` with a valid message throws the `SyntaxError` from
`new RegExp` inside `checkBlockedPatterns`. -/
theorem C5_counterexample :
    GBadPattern.config.blockedPatterns = [.str "(" none] ∧
    moderateInput GBadPattern (.str ("hello".toList)) = .error (.syntaxError "(") :=
  ⟨rfl, rfl⟩

/-- C5 amended: invalid pattern syntax is not detected at
construction/configure time — `configure` stores the provided pattern
list verbatim — and the compilation fault surfaces at moderation time:
with content filtering on and a malformed string pattern first in
`blockedPatterns`, any `moderateInput` whose message passes validation
raises the `SyntaxError`. -/
theorem C5_lazy_pattern_compilation (st : GuardrailsState) (s : JSString)
    (bad : String) (rest : List BlockedPattern)
    (he : st.config.enableContentFilter = true)
    (hbp : st.config.blockedPatterns = .str bad none :: rest)
    (hval : (validateInput st.config.minMessageLength st.config.maxMessageLength
      (.str s)).valid = true) :
    moderateInput st (.str s) = .error (.syntaxError bad) ∧
    ∀ o : Options, (configure st o).config.blockedPatterns =
      o.blockedPatterns.getD st.config.blockedPatterns := by
  refine ⟨?_, fun o => rfl⟩
  rw [moderateInput]
  simp only [hval, Bool.not_true, Bool.false_eq_true, if_false, jsValStr]
  rw [he, hbp]
  have hc : checkBlockedPatterns true (.str bad none :: rest) st.config.allowedPatterns s =
      .error (.syntaxError bad) := rfl
  rw [hc]

/-- Witness for C5's amended claim: the engine configured with the
malformed pattern string `"("` raises the `SyntaxError` on moderating
`"hi"`, and a `configure` call stores pattern lists verbatim. -/
theorem C5_lazy_pattern_compilation_witness :
    moderateInput GBadPattern (.str ("hi".toList)) = .error (.syntaxError "(") ∧
    (configure GBadPattern emptyOptions).config.blockedPatterns =
      emptyOptions.blockedPatterns.getD GBadPattern.config.blockedPatterns := by
  have h := C5_lazy_pattern_compilation GBadPattern ("hi".toList) "(" [] rfl rfl rfl
  exact ⟨h.1, h.2 emptyOptions⟩

/-- C6: a throwing policy predicate (function-shaped or object-shaped)
is recorded as failed with code `POLICY_ERROR` and a reason embedding
the error message; it does not stop the remaining policies from being
evaluated, the overall result is `passed: false` with the full ordered
violation list; and the two-policy instance (first throws, second passes)
yields exactly one `POLICY_ERROR` violation. -/
theorem C6_policy_error_isolation :
    (∀ (content : JSString) (context : String) (n : Option String)
        (run : JSString → String → PolicyCall) (msg : String),
        run content context = .throw msg →
        _evaluatePolicy (.fn n run) content context =
          .ok ⟨false, some ("Policy error: " ++ msg), some "POLICY_ERROR"⟩) ∧
    (∀ (content : JSString) (context : String) (n rsn : Option String)
        (run : JSString → String → PolicyCall) (msg : String),
        run content context = .throw msg →
        _evaluatePolicy (.withCheck n rsn run) content context =
          .ok ⟨false, some ("Policy error: " ++ msg), some "POLICY_ERROR"⟩) ∧
    (∀ (content : JSString) (context : String) (ps1 ps2 : List Policy) (p : Policy)
        (r : PolicyEval) (v1 v2 : List Violation),
        _evaluatePolicy p content context = .ok r → r.passed = false →
        policyViolations content context ps1 = .ok v1 →
        policyViolations content context ps2 = .ok v2 →
        policyViolations content context (ps1 ++ p :: ps2) =
          .ok (v1 ++ ⟨jsOrStr p.nameOf "unnamed", r.reason,
            jsOrStr r.code "POLICY_VIOLATION"⟩ :: v2) ∧
        applyPolicies (ps1 ++ p :: ps2) content context =
          .ok ⟨false,
            some (v1 ++ ⟨jsOrStr p.nameOf "unnamed", r.reason,
              jsOrStr r.code "POLICY_VIOLATION"⟩ :: v2),
            some ("Violated " ++
              toString (v1 ++ ⟨jsOrStr p.nameOf "unnamed", r.reason,
                jsOrStr r.code "POLICY_VIOLATION"⟩ :: v2).length ++ " policy/policies"),
            some "POLICY_VIOLATION"⟩) ∧
    (∀ (content : JSString) (context : String) (n1 n2 : Option String)
        (run1 run2 : JSString → String → PolicyCall) (msg : String),
        run1 content context = .throw msg → run2 content context = .ret (.bool true) →
        applyPolicies [.fn n1 run1, .fn n2 run2] content context =
          .ok ⟨false,
            some [⟨jsOrStr n1 "unnamed", some ("Policy error: " ++ msg), "POLICY_ERROR"⟩],
            some ("Violated " ++ toString (1 : Nat) ++ " policy/policies"),
            some "POLICY_VIOLATION"⟩) := by
  refine ⟨?_, ?_, ?_, ?_⟩
  · intro content context n run msg h
    simp only [_evaluatePolicy]
    rw [h]
  · intro content context n rsn run msg h
    simp only [_evaluatePolicy]
    rw [h]
  · intro content context ps1 ps2 p r v1 v2 hev hp h1 h2
    have hmid : policyViolations content context (p :: ps2) =
        .ok (⟨jsOrStr p.nameOf "unnamed", r.reason,
          jsOrStr r.code "POLICY_VIOLATION"⟩ :: v2) := by
      rw [policyViolations, hev, h2]
      simp [hp]
    have hfull := policyViolations_append content context ps1 (p :: ps2) v1 _ h1 hmid
    refine ⟨hfull, ?_⟩
    have hne : (ps1 ++ p :: ps2).isEmpty = false := by cases ps1 <;> rfl
    rw [applyPolicies, hne]
    simp only [Bool.false_eq_true, if_false]
    rw [hfull]
    have hvne : (v1 ++ (⟨jsOrStr p.nameOf "unnamed", r.reason,
        jsOrStr r.code "POLICY_VIOLATION"⟩ : Violation) :: v2).isEmpty = false := by
      cases v1 <;> rfl
    simp only [hvne, Bool.false_eq_true, if_false]
  · intro content context n1 n2 run1 run2 msg h1 h2
    have e1 : _evaluatePolicy (.fn n1 run1) content context =
        .ok ⟨false, some ("Policy error: " ++ msg), some "POLICY_ERROR"⟩ := by
      simp only [_evaluatePolicy]
      rw [h1]
    have e2 : _evaluatePolicy (.fn n2 run2) content context = .ok ⟨true, none, none⟩ := by
      simp only [_evaluatePolicy]
      rw [h2]
      rfl
    simp only [applyPolicies, policyViolations, e1, e2, List.isEmpty_cons,
      Bool.false_eq_true, if_false]
    rfl

/-- Witness for C6: concrete engine-independent run of the policy engine
with a throwing first policy and a passing second one. -/
theorem C6_policy_error_isolation_witness :
    _evaluatePolicy (.fn (some "p1") throwingRun) ("x".toList) "input" =
      .ok ⟨false, some ("Policy error: " ++ "boom"), some "POLICY_ERROR"⟩ ∧
    applyPolicies [.fn (some "p1") throwingRun, .fn (some "p2") passingRun]
        ("x".toList) "input" =
      .ok ⟨false,
        some [⟨jsOrStr (some "p1") "unnamed", some ("Policy error: " ++ "boom"),
          "POLICY_ERROR"⟩],
        some ("Violated " ++ toString (1 : Nat) ++ " policy/policies"),
        some "POLICY_VIOLATION"⟩ := by
  have h := C6_policy_error_isolation
  exact ⟨h.1 ("x".toList) "input" (some "p1") throwingRun "boom" rfl,
    h.2.2.2 ("x".toList) "input" (some "p1") (some "p2") throwingRun passingRun "boom" rfl rfl⟩

theorem checkBlockedPatterns_allow_eq (bps bps' l : List BlockedPattern) (s : JSString)
    (hblk : runBlockedLoop s bps = .ok (none, bps')) :
    checkBlockedPatterns true bps (some l) s =
      if l.isEmpty = true then .ok (⟨false, none, none, none⟩, bps', some l)
      else
        match runAllowedLoop s l with
        | .error e => .error e
        | .ok ar =>
          if ar.1 = true then .ok (⟨false, none, none, none⟩, bps', some ar.2)
          else
            .ok (⟨true, none, some "Content does not match any allowed pattern",
              some "NOT_ALLOWED_PATTERN"⟩, bps', some ar.2) := by
  rw [checkBlockedPatterns, hblk]
  rfl

/-- C8: with content filtering on, no blocked-pattern hit, and pattern
states fresh (compilable strings, regexes with `lastIndex = 0`), a
configured non-empty allowlist blocks with `NOT_ALLOWED_PATTERN` exactly
when the text matches none of the allowed patterns; a `null` or empty
allowlist is skipped and the result is not blocked. -/
theorem C8_allowlist_gate :
    (∀ (bps l : List BlockedPattern) (s : JSString),
        (∀ p ∈ bps, patFresh p = true) → (∀ p ∈ bps, patMatches p s = false) →
        (∀ p ∈ l, patFresh p = true) → l ≠ [] →
        ∃ res rest, checkBlockedPatterns true bps (some l) s = .ok (res, rest) ∧
          ((res.blocked = true ∧ res.code = some "NOT_ALLOWED_PATTERN") ↔
            ∀ p ∈ l, patMatches p s = false)) ∧
    (∀ (bps : List BlockedPattern) (s : JSString),
        (∀ p ∈ bps, patFresh p = true) → (∀ p ∈ bps, patMatches p s = false) →
        ∃ bps', checkBlockedPatterns true bps none s =
          .ok (⟨false, none, none, none⟩, bps', none)) ∧
    (∀ (bps : List BlockedPattern) (s : JSString),
        (∀ p ∈ bps, patFresh p = true) → (∀ p ∈ bps, patMatches p s = false) →
        ∃ bps', checkBlockedPatterns true bps (some []) s =
          .ok (⟨false, none, none, none⟩, bps', some [])) := by
  refine ⟨?_, ?_, ?_⟩
  · intro bps l s hbf hbn hlf hlne
    obtain ⟨bps', hblk⟩ := runBlockedLoop_fresh_none s bps hbf hbn
    obtain ⟨l', hall⟩ := runAllowedLoop_fresh s l hlf
    have hle : l.isEmpty = false := by
      cases l with
      | nil => exact absurd rfl hlne
      | cons a t => rfl
    by_cases hany : ∀ p ∈ l, patMatches p s = false
    · have hanyb : l.any (fun p => patMatches p s) = false := by
        rw [List.any_eq_false]
        intro p hp
        simp [hany p hp]
      rw [hanyb] at hall
      refine ⟨⟨true, none, some "Content does not match any allowed pattern",
        some "NOT_ALLOWED_PATTERN"⟩, (bps', some l'), ?_, ?_⟩
      · rw [checkBlockedPatterns_allow_eq bps bps' l s hblk, hle]
        simp only [Bool.false_eq_true, if_false]
        rw [hall]
        rfl
      · exact iff_of_true ⟨rfl, rfl⟩ hany
    · have hanyb : l.any (fun p => patMatches p s) = true := by
        rw [List.any_eq_true]
        push_neg at hany
        obtain ⟨p, hp, hpm⟩ := hany
        exact ⟨p, hp, by simpa using hpm⟩
      rw [hanyb] at hall
      refine ⟨⟨false, none, none, none⟩, (bps', some l'), ?_, ?_⟩
      · rw [checkBlockedPatterns_allow_eq bps bps' l s hblk, hle]
        simp only [Bool.false_eq_true, if_false]
        rw [hall]
        rfl
      · constructor
        · rintro ⟨hcontra, -⟩
          exact absurd hcontra (by simp)
        · intro hforall
          exact absurd hforall hany
  · intro bps s hbf hbn
    obtain ⟨bps', hblk⟩ := runBlockedLoop_fresh_none s bps hbf hbn
    exact ⟨bps', by rw [checkBlockedPatterns, hblk]; rfl⟩
  · intro bps s hbf hbn
    obtain ⟨bps', hblk⟩ := runBlockedLoop_fresh_none s bps hbf hbn
    exact ⟨bps', by rw [checkBlockedPatterns, hblk]; rfl⟩

/-- Witness for C8 at the spec's example: allowlist `[/^HELLO/i]` and no
blocked patterns — `"hello world"` passes the filter, `"goodbye"` is
blocked with `NOT_ALLOWED_PATTERN`. -/
theorem C8_allowlist_gate_witness :
    (∃ res rest, checkBlockedPatterns true [] (some [helloAllowed]) ("hello world".toList) =
        .ok (res, rest) ∧
      ((res.blocked = true ∧ res.code = some "NOT_ALLOWED_PATTERN") ↔
        ∀ p ∈ [helloAllowed], patMatches p ("hello world".toList) = false)) ∧
    (∃ res rest, checkBlockedPatterns true [] (some [helloAllowed]) ("goodbye".toList) =
        .ok (res, rest) ∧
      ((res.blocked = true ∧ res.code = some "NOT_ALLOWED_PATTERN") ↔
        ∀ p ∈ [helloAllowed], patMatches p ("goodbye".toList) = false)) ∧
    (checkBlockedPatterns true [] (some [helloAllowed]) ("hello world".toList)).toOption.map
        (fun r => (r.1.blocked, r.1.code)) = some (false, none) ∧
    (checkBlockedPatterns true [] (some [helloAllowed]) ("goodbye".toList)).toOption.map
        (fun r => (r.1.blocked, r.1.code)) = some (true, some "NOT_ALLOWED_PATTERN") := by
  have h := C8_allowlist_gate
  refine ⟨h.1 [] [helloAllowed] ("hello world".toList)
      (fun p hp => absurd hp (List.not_mem_nil p))
      (fun p hp => absurd hp (List.not_mem_nil p))
      (fun p hp => by rw [List.mem_singleton] at hp; subst hp; rfl)
      (by simp),
    h.1 [] [helloAllowed] ("goodbye".toList)
      (fun p hp => absurd hp (List.not_mem_nil p))
      (fun p hp => absurd hp (List.not_mem_nil p))
      (fun p hp => by rw [List.mem_singleton] at hp; subst hp; rfl)
      (by simp),
    rfl, rfl⟩

/-- C10 counterexample: the claim says every policy value that is
neither a function nor an object with a callable `check` evaluates to
`passed: true` and can never affect moderation.  A `null` policy entry
refutes it: `_evaluatePolicy` reads `policy.check` on `null`, which
throws an uncaught `TypeError`, and the exception escapes
`moderateInput` instead of the evaluation returning `passed: true`. -/
theorem C10_counterexample :
    _evaluatePolicy (.nullish "null") ("hi".toList) "input" =
      .error (.typeError (nullishCheckMsg "null")) ∧
    moderateInput GNullPolicy (.str ("hi".toList)) =
      .error (.typeError (nullishCheckMsg "null")) :=
  ⟨rfl, rfl⟩

/-- C10 amended: a configured policy value that is neither a function,
nor an object with a callable `check`, nor `null`/`undefined` evaluates
to `passed: true` (reason `Invalid policy format`), contributes no
violation, and never changes the verdict or log of `moderateInput` /
`moderateOutput`; a `null`/`undefined` policy entry instead makes
`_evaluatePolicy` throw an uncaught `TypeError` from the `policy.check`
access, which escapes `applyPolicies` and `moderateInput`. -/
theorem C10_invalid_passes_nullish_throws :
    (∀ (n : Option String) (content : JSString) (context : String),
        _evaluatePolicy (.invalid n) content context =
          .ok ⟨true, some "Invalid policy format", none⟩) ∧
    (∀ (content : JSString) (context : String) (ps1 ps2 : List Policy) (n : Option String),
        applyPolicies (ps1 ++ .invalid n :: ps2) content context =
          applyPolicies (ps1 ++ ps2) content context) ∧
    (∀ (st : GuardrailsState) (input : JSVal) (ps1 ps2 : List Policy) (n : Option String),
        (moderateInput (withPolicies st (ps1 ++ .invalid n :: ps2)) input).map pickVL =
          (moderateInput (withPolicies st (ps1 ++ ps2)) input).map pickVL) ∧
    (∀ (st : GuardrailsState) (content : JSString) (ps1 ps2 : List Policy) (n : Option String),
        (moderateOutput (withPolicies st (ps1 ++ .invalid n :: ps2)) content).map pickVL =
          (moderateOutput (withPolicies st (ps1 ++ ps2)) content).map pickVL) ∧
    (∀ (tag : String) (content : JSString) (context : String),
        _evaluatePolicy (.nullish tag) content context =
          .error (.typeError (nullishCheckMsg tag))) ∧
    (∀ (tag : String) (content : JSString) (context : String) (ps2 : List Policy),
        applyPolicies (.nullish tag :: ps2) content context =
          .error (.typeError (nullishCheckMsg tag))) ∧
    (∀ (st : GuardrailsState) (s : JSString) (tag : String) (ps2 : List Policy)
        (bpr : BPResult × List BlockedPattern × Option (List BlockedPattern)),
        (validateInput st.config.minMessageLength st.config.maxMessageLength
          (.str s)).valid = true →
        checkBlockedPatterns st.config.enableContentFilter st.config.blockedPatterns
          st.config.allowedPatterns s = .ok bpr →
        bpr.1.blocked = false →
        ((checkProfanity st.config.enableProfanityFilter
            st.profanityPatterns s).1.hasProfanity = false ∨
          st.config.violationAction ≠ "reject") →
        (checkHarmfulContent st.config.enableContentFilter
          st.harmfulPatterns s).1.isHarmful = false →
        st.config.policies = .nullish tag :: ps2 →
        moderateInput st (.str s) = .error (.typeError (nullishCheckMsg tag))) := by
  refine ⟨fun n content context => rfl, ?_, ?_, ?_, fun tag content context => rfl,
    fun tag content context ps2 => rfl, ?_⟩
  · exact fun content context ps1 ps2 n =>
      applyPolicies_invalid_skipped content context ps1 ps2 n
  · intro st input ps1 ps2 n
    exact moderateInput_policies_congr st _ _ input
      (fun s ctx => applyPolicies_invalid_skipped s ctx ps1 ps2 n)
  · intro st content ps1 ps2 n
    exact moderateOutput_policies_congr st _ _ content
      (fun s ctx => applyPolicies_invalid_skipped s ctx ps1 ps2 n)
  · intro st s tag ps2 bpr hval hbp hnb hgate hnh hpol
    rw [moderateInput]
    simp only [hval, Bool.not_true, Bool.false_eq_true, if_false, jsValStr]
    rw [hbp]
    simp only [hnb, Bool.false_eq_true, if_false]
    rcases hgate with hpf | ha
    · simp only [hpf, Bool.false_and, Bool.false_eq_true, if_false]
      simp only [hnh, Bool.false_eq_true, if_false]
      rw [hpol]
      rfl
    · have hbeq : (st.config.violationAction == "reject") = false :=
        beq_eq_false_iff_ne.mpr ha
      simp only [hbeq, Bool.and_false, Bool.false_eq_true, if_false]
      simp only [hnh, Bool.false_eq_true, if_false]
      rw [hpol]
      rfl

/-- Witness for C10's amended claim: the engine with a single `null`
policy entry lets the `TypeError` escape `moderateInput` on an otherwise
clean message. -/
theorem C10_invalid_passes_nullish_throws_witness :
    moderateInput GNullPolicy (.str ("ok".toList)) =
      .error (.typeError (nullishCheckMsg "null")) := by
  have h := C10_invalid_passes_nullish_throws
  exact h.2.2.2.2.2.2 GNullPolicy ("ok".toList) "null" []
    (⟨false, none, none, none⟩, [], none) rfl rfl rfl (Or.inl rfl) rfl rfl
